import Mathlib

/-!
Shallow embedding of the crash-monitor coordination core
(`Sources/KSCrashRecordingCore/KSCrashMonitor.c`).

The C module keeps process-wide mutable state: the monitor registry
`g_monitors` guarded by `g_monitorsLock`, the policy `g_currentPolicy`,
the sticky flag `g_crashedDuringExceptionHandling`, the two pre-built
event identifiers `g_eventIds` with cursor `g_eventIdIdx`, and the
application callback `g_onExceptionEvent`.  We model this state as an
explicit record threaded through each operation, and record the calls
the core makes into the external monitor plugins and the application
callback as a trace of events.

Modelling decisions:
- A monitor plugin (`KSCrashMonitorAPI *`) is a record.  Pointer
  identity is modelled by the `ptr` field; `monitorId()` by the
  `monitorId` field (`none` models a NULL id); the flag bits
  `KSCrashMonitorFlagAsyncSafe` / `KSCrashMonitorFlagDebuggerUnsafe`
  of `monitorFlags()` by two booleans; `isEnabled()` / `setEnabled()`
  by the `enabled` field.
- `ksid_generate` produces a fresh unique identifier; we model the
  entropy source by a counter `nextId`, so generated identifiers are
  distinct.
- `os_unfair_lock` is modelled by a boolean `lockHeld`:
  `os_unfair_lock_trylock` succeeds exactly when `lockHeld = false`.
  Blocking acquisitions (registration, activation, disable-all) are
  executed atomically in this sequential model: acquire and release
  happen within the operation, leaving `lockHeld` unchanged.
- `memcpy` of an event id buffer into `context->eventID` is modelled
  by assigning the identifier; `eventID = none` means the buffer was
  never written by the core.
-/

/-- Source `KSCrash_ExceptionHandlingPolicy`: the global policy record
`{isFatal, asyncSafety}` (`g_currentPolicy`). -/
structure KSCrash_ExceptionHandlingPolicy where
  isFatal : Bool
  asyncSafety : Bool
deriving DecidableEq, Repr

/-- A monitor plugin (`KSCrashMonitorAPI`).  `ptr` models pointer
identity, `monitorId` the `monitorId()` capability (`none` = NULL),
the two flag fields the relevant bits of `monitorFlags()`, and
`enabled` the state read by `isEnabled()` and written by
`setEnabled()`. -/
structure KSCrashMonitorAPI where
  ptr : Nat
  monitorId : Option String
  flagAsyncSafe : Bool
  flagDebuggerUnsafe : Bool
  enabled : Bool
deriving DecidableEq, Repr

/-- Source `KSCrash_MonitorContext`: the shared fields of the event context
that the core itself reads or writes. -/
structure KSCrash_MonitorContext where
  handlingCrash : Bool
  requiresAsyncSafety : Bool
  crashedDuringCrashHandling : Bool
  eventID : Option Nat
deriving DecidableEq, Repr

/-- Calls made by the core into external code (monitor capabilities
and the application-level callback), recorded as a trace. -/
inductive MEvent where
  | initCall (ptr : Nat)
  | setEnabledCall (ptr : Nat) (value : Bool)
  | contextualInfo (ptr : Nat)
  | postSystemEnable (ptr : Nat)
  | appCallback
deriving DecidableEq, Repr

/-- The process-wide mutable state of `KSCrashMonitor.c`. -/
structure MonitorState where
  monitors : List KSCrashMonitorAPI
  lockHeld : Bool
  crashedDuringExceptionHandling : Bool
  currentPolicy : KSCrash_ExceptionHandlingPolicy
  eventIds : Nat × Nat
  eventIdIdx : Nat
  nextId : Nat
  hasOnExceptionEvent : Bool
deriving DecidableEq, Repr

/-- Source `g_eventIdCount`: the pool holds two pre-built identifiers. -/
def g_eventIdCount : Nat := 2

/-- Source `regenerateEventIds`: fill both slots of `g_eventIds` with freshly
generated identifiers and reset `g_eventIdIdx` to 0. -/
def regenerateEventIds (s : MonitorState) : MonitorState :=
  { s with
    eventIds := (s.nextId, s.nextId + 1)
    eventIdIdx := 0
    nextId := s.nextId + 2 }

/-- The pool-consumption step inlined in `handleException` (lines
314-320): fail when the cursor has reached capacity, otherwise return
the slot at the cursor and advance it. -/
def consumeEventId (s : MonitorState) : Option (Nat × MonitorState) :=
  if g_eventIdCount ≤ s.eventIdIdx then
    none
  else
    some (if s.eventIdIdx = 0 then s.eventIds.1 else s.eventIds.2,
      { s with eventIdIdx := s.eventIdIdx + 1 })

/-- Source `kscm_disableAllMonitors`: under the (blocking) lock, call
`setEnabled(false)` on every registered monitor. -/
def kscm_disableAllMonitors (s : MonitorState) :
    MonitorState × List MEvent :=
  ({ s with monitors := s.monitors.map (fun m => { m with enabled := false }) },
   s.monitors.map (fun m => MEvent.setEnabledCall m.ptr false))

/-- Source `notifyException(recommendations)`: OR `asyncSafety` into the
global policy; return false for non-fatal recommendations; otherwise
record a re-entrant fault if `isFatal` was already set, set `isFatal`,
and on a re-entrant fault disable all monitors.  Returns
`g_crashedDuringExceptionHandling`. -/
def notifyException (s : MonitorState)
    (rec : KSCrash_ExceptionHandlingPolicy) :
    MonitorState × Bool × List MEvent :=
  let s1 := { s with currentPolicy :=
    { s.currentPolicy with
      asyncSafety := s.currentPolicy.asyncSafety || rec.asyncSafety } }
  if !rec.isFatal then
    (s1, false, [])
  else
    let s2 := if s1.currentPolicy.isFatal then
        { s1 with crashedDuringExceptionHandling := true }
      else s1
    let s3 := { s2 with currentPolicy := { s2.currentPolicy with isFatal := true } }
    if s3.crashedDuringExceptionHandling then
      ((kscm_disableAllMonitors s3).1, true, (kscm_disableAllMonitors s3).2)
    else
      (s3, false, [])

/-- The tail of `handleException` after the event identifier has been
resolved (lines 323-346): annotate via every enabled monitor, release
the lock, invoke the application callback if registered, disable all
monitors when fatal and not crashed-during-handling, and clear
`handlingCrash`. -/
def handleExceptionTail (s : MonitorState) (ctx : KSCrash_MonitorContext) :
    MonitorState × KSCrash_MonitorContext × List MEvent :=
  let infoEvents := (s.monitors.filter (fun m => m.enabled)).map
    (fun m => MEvent.contextualInfo m.ptr)
  let s1 := { s with lockHeld := false }
  let cbEvents : List MEvent :=
    if s1.hasOnExceptionEvent then [MEvent.appCallback] else []
  let afterDisable :=
    if s1.currentPolicy.isFatal && !s1.crashedDuringExceptionHandling then
      kscm_disableAllMonitors s1
    else
      (s1, [])
  (afterDisable.1, { ctx with handlingCrash := false },
   infoEvents ++ cbEvents ++ afterDisable.2)

/-- Source `handleException(context)`: stamp the shared context fields, try
the registry lock (returning early on contention), resolve the event
identifier (freshly generated when async-safety is not required,
otherwise consumed from the pre-built pool, aborting — without
releasing the lock — when the pool is exhausted), then run the
annotated tail. -/
def handleException (s : MonitorState) (ctx : KSCrash_MonitorContext) :
    MonitorState × KSCrash_MonitorContext × List MEvent :=
  let ctx1 := { ctx with handlingCrash := ctx.handlingCrash || s.currentPolicy.isFatal }
  let ctx2 := { ctx1 with requiresAsyncSafety := s.currentPolicy.asyncSafety }
  let ctx3 := if s.crashedDuringExceptionHandling then
      { ctx2 with crashedDuringCrashHandling := true }
    else ctx2
  if s.lockHeld then
    (s, ctx3, [])
  else
    let s1 := { s with lockHeld := true }
    if !s1.currentPolicy.asyncSafety then
      handleExceptionTail
        { s1 with nextId := s1.nextId + 1 }
        { ctx3 with eventID := some s1.nextId }
    else
      if g_eventIdCount ≤ s1.eventIdIdx then
        (s1, ctx3, [])
      else
        let eid := if s1.eventIdIdx = 0 then s1.eventIds.1 else s1.eventIds.2
        handleExceptionTail
          { s1 with eventIdIdx := s1.eventIdIdx + 1 }
          { ctx3 with eventID := some eid }

/-- Models `ksstring_safeStrcmp(a, b) == 0`: two NULL strings compare
equal, a NULL never equals a non-NULL, otherwise string equality. -/
def safeStrEq (a b : Option String) : Bool :=
  match a, b with
  | none, none => true
  | some x, some y => x == y
  | _, _ => false

/-- Source `kscm_addMonitor(api)`: reject a NULL monitor or a NULL id; reject
a duplicate id (no state change, `init` not invoked); otherwise invoke
`api->init(&g_exceptionCallbacks)` once and append under the lock. -/
def kscm_addMonitor (s : MonitorState) (api : Option KSCrashMonitorAPI) :
    MonitorState × Bool × List MEvent :=
  match api with
  | none => (s, false, [])
  | some m =>
    match m.monitorId with
    | none => (s, false, [])
    | some _ =>
      if s.monitors.any (fun em => safeStrEq em.monitorId m.monitorId) then
        (s, false, [])
      else
        ({ s with monitors := s.monitors ++ [m] }, true, [MEvent.initCall m.ptr])

/-- Register a list of monitors in order via `kscm_addMonitor`. -/
def addMonitors (s : MonitorState) (ms : List KSCrashMonitorAPI) : MonitorState :=
  ms.foldl (fun st m => (kscm_addMonitor st (some m)).1) s

/-- Source `removeMonitor(list, api)`: find the first entry whose pointer
equals `api`; call `setEnabled(false)` on it, replace it with the last
entry and truncate (swap-with-last); no-op when not found.  Also
returns the removed descriptor (after `setEnabled(false)`). -/
def removeMonitor (list : List KSCrashMonitorAPI) (api : KSCrashMonitorAPI) :
    List KSCrashMonitorAPI × List MEvent × Option KSCrashMonitorAPI :=
  match list.findIdx? (fun m => m.ptr == api.ptr) with
  | none => (list, [], none)
  | some i =>
    let found := (list.get? i).getD api
    let lastM := list.getLast?.getD api
    ((list.set i lastM).dropLast,
     [MEvent.setEnabledCall found.ptr false],
     some { found with enabled := false })

/-- Source `kscm_removeMonitor(api)`: NULL is a no-op; otherwise remove under
the (blocking) lock. -/
def kscm_removeMonitor (s : MonitorState) (api : Option KSCrashMonitorAPI) :
    MonitorState × List MEvent × Option KSCrashMonitorAPI :=
  match api with
  | none => (s, [], none)
  | some a =>
    ({ s with monitors := (removeMonitor s.monitors a).1 },
     (removeMonitor s.monitors a).2.1,
     (removeMonitor s.monitors a).2.2)

/-- The per-monitor arming decision of `kscm_activateMonitors`:
disable when the debugger is attached and the monitor is flagged
DebuggerUnsafe, disable when async-safety is required and the monitor
lacks the AsyncSafe flag, otherwise enable. -/
def shouldEnableMonitor (isDebuggerUnsafe isAsyncSafeRequired : Bool)
    (m : KSCrashMonitorAPI) : Bool :=
  !(isDebuggerUnsafe && m.flagDebuggerUnsafe) &&
    !(isAsyncSafeRequired && !m.flagAsyncSafe)

/-- Source `kscm_activateMonitors()`: read the debugger probe and the current
policy's `asyncSafety`; regenerate the identifier pool before and
after taking the lock; apply the arming decision to every monitor via
`setEnabled`; then, outside the lock, call `notifyPostSystemEnable()`
on each enabled monitor.  Returns true iff any monitor is enabled. -/
def kscm_activateMonitors (s : MonitorState) (isDebuggerUnsafe : Bool) :
    MonitorState × Bool × List MEvent :=
  let isAsyncSafeRequired := s.currentPolicy.asyncSafety
  let s1 := regenerateEventIds (regenerateEventIds s)
  let newMonitors := s1.monitors.map (fun m =>
    { m with enabled := shouldEnableMonitor isDebuggerUnsafe isAsyncSafeRequired m })
  let setEvents := newMonitors.map (fun m => MEvent.setEnabledCall m.ptr m.enabled)
  let enabledMonitors := newMonitors.filter (fun m => m.enabled)
  let postEvents := enabledMonitors.map (fun m => MEvent.postSystemEnable m.ptr)
  ({ s1 with monitors := newMonitors },
   newMonitors.any (fun m => m.enabled),
   setEvents ++ postEvents)

/-- The state right after `kscm_resetState` plus `kscm_setEventCallback`
with a non-NULL callback: empty registry, lock free, zeroed policy and
sticky flag, a freshly regenerated pool. -/
def baseState : MonitorState :=
  regenerateEventIds
    { monitors := []
      lockHeld := false
      crashedDuringExceptionHandling := false
      currentPolicy := { isFatal := false, asyncSafety := false }
      eventIds := (0, 0)
      eventIdIdx := 0
      nextId := 1
      hasOnExceptionEvent := true }

/-- A zeroed event context, as handed to `handleException`. -/
def freshContext : KSCrash_MonitorContext :=
  { handlingCrash := false
    requiresAsyncSafety := false
    crashedDuringCrashHandling := false
    eventID := none }

/-- A purely fatal recommendation. -/
def fatalRec : KSCrash_ExceptionHandlingPolicy :=
  { isFatal := true, asyncSafety := false }

/-- A non-fatal recommendation that requests async-safety. -/
def nonfatalRec : KSCrash_ExceptionHandlingPolicy :=
  { isFatal := false, asyncSafety := true }

/-- A state whose registry lock is currently held by another thread,
mid-episode (fatal policy). -/
def lockedFatalState : MonitorState :=
  { baseState with
    lockHeld := true
    currentPolicy := { isFatal := true, asyncSafety := false } }

/-- Concrete monitor plugin with id "A". -/
def mA : KSCrashMonitorAPI :=
  { ptr := 1, monitorId := some "A", flagAsyncSafe := true,
    flagDebuggerUnsafe := false, enabled := true }

/-- Concrete monitor plugin with id "B", debugger-unsafe and not
async-safe. -/
def mB : KSCrashMonitorAPI :=
  { ptr := 2, monitorId := some "B", flagAsyncSafe := false,
    flagDebuggerUnsafe := true, enabled := true }

/-- Concrete monitor plugin with id "C". -/
def mC : KSCrashMonitorAPI :=
  { ptr := 3, monitorId := some "C", flagAsyncSafe := true,
    flagDebuggerUnsafe := false, enabled := true }

/-- A distinct monitor object (different pointer) that reuses id "B". -/
def mB2 : KSCrashMonitorAPI :=
  { ptr := 4, monitorId := some "B", flagAsyncSafe := true,
    flagDebuggerUnsafe := false, enabled := true }

/-- The projection of the state the policy state machine is about:
`(isFatal, asyncSafety, crashedDuringHandling)`. -/
def policyTriple (s : MonitorState) : Bool × Bool × Bool :=
  (s.currentPolicy.isFatal, s.currentPolicy.asyncSafety,
   s.crashedDuringExceptionHandling)

/-- The registry after registering monitors A, B, C in that order. -/
def s9 : MonitorState := addMonitors baseState [mA, mB, mC]

/-- A state with monitors A and B registered directly. -/
def sAB : MonitorState := { baseState with monitors := [mA, mB] }

/-- A state with only monitor B registered. -/
def sB : MonitorState := { baseState with monitors := [mB] }

/-! ## Helper lemmas -/

/-- How one `notifyException` call transforms the policy triple:
`isFatal` is OR'd with the recommendation's `isFatal`, `asyncSafety`
is OR'd, and the sticky flag absorbs `isFatal && old isFatal`. -/
theorem notify_policy_step (s : MonitorState)
    (r : KSCrash_ExceptionHandlingPolicy) :
    (notifyException s r).1.currentPolicy.isFatal
        = (s.currentPolicy.isFatal || r.isFatal) ∧
      (notifyException s r).1.currentPolicy.asyncSafety
        = (s.currentPolicy.asyncSafety || r.asyncSafety) ∧
      (notifyException s r).1.crashedDuringExceptionHandling
        = (s.crashedDuringExceptionHandling
            || (r.isFatal && s.currentPolicy.isFatal)) := by
  cases hf : r.isFatal <;> cases hsf : s.currentPolicy.isFatal <;>
    cases hc : s.crashedDuringExceptionHandling <;>
      simp [notifyException, kscm_disableAllMonitors, hf, hsf, hc]

/-- Boolean shape of the `isFatal` / `asyncSafety` merge under two
notifications, order swapped. -/
theorem bool_or_right_swap : ∀ f x y : Bool,
    ((f || x) || y) = ((f || y) || x) := by decide

/-- Boolean shape of the sticky-flag merge under two notifications,
order swapped. -/
theorem bool_crashed_swap : ∀ c f x y : Bool,
    ((c || (x && f)) || (y && (f || x)))
      = ((c || (y && f)) || (x && (f || y))) := by decide

/-- Boolean absorption used for repeated notifications. -/
theorem bool_or_absorb : ∀ a b : Bool, ((a || b) || b) = (a || b) := by decide

/-! ## Claims -/

/-- Claim C1, counterexample: with the registry lock held elsewhere
and a fatal policy, `handleException` does mutate the context (it
stamps `handlingCrash` before attempting the lock), contradicting the
claim that it returns without mutating any field of `context`. -/
theorem handle_lockHeld_counterexample :
    lockedFatalState.lockHeld = true ∧
      (handleException lockedFatalState freshContext).2.1 ≠ freshContext := by
  decide

/-- Claim C1, amended: if the registry lock is already held elsewhere,
`handleException` returns without invoking the application callback or
any monitor capability (empty trace), without writing an event
identifier, and without changing the global state; the context is
changed only by the initial stamping of `handlingCrash`,
`requiresAsyncSafety` and `crashedDuringCrashHandling`. -/
theorem handle_lockHeld_no_callback (s : MonitorState)
    (ctx : KSCrash_MonitorContext) (h : s.lockHeld = true) :
    (handleException s ctx).1 = s ∧
      (handleException s ctx).2.2 = [] ∧
      (handleException s ctx).2.1 =
        { ctx with
          handlingCrash := ctx.handlingCrash || s.currentPolicy.isFatal
          requiresAsyncSafety := s.currentPolicy.asyncSafety
          crashedDuringCrashHandling := ctx.crashedDuringCrashHandling
            || s.crashedDuringExceptionHandling } := by
  cases hc : s.crashedDuringExceptionHandling <;>
    simp [handleException, h, hc]

/-- Witness for the amended claim C1 at a concrete locked state. -/
theorem handle_lockHeld_no_callback_witness :
    lockedFatalState.lockHeld = true ∧
      (handleException lockedFatalState freshContext).2.2 = [] :=
  ⟨by decide,
   (handle_lockHeld_no_callback lockedFatalState freshContext (by decide)).2.1⟩

/-- Claim C2: from a reset policy state, two fatal notifications
without an intervening reset make the second call return true, set the
sticky crashed-during-handling flag, emit `setEnabled(false)` on every
registered monitor (the `disableAllMonitors` call happens inside
`notifyException`, hence before any `handleException` call), and leave
every registered monitor disabled. -/
theorem notify_fatal_twice_disables_all (s : MonitorState)
    (r1 r2 : KSCrash_ExceptionHandlingPolicy)
    (h0 : s.currentPolicy.isFatal = false)
    (h1 : s.crashedDuringExceptionHandling = false)
    (hf1 : r1.isFatal = true) (hf2 : r2.isFatal = true) :
    (notifyException (notifyException s r1).1 r2).2.1 = true ∧
      (notifyException (notifyException s r1).1 r2).1.crashedDuringExceptionHandling
        = true ∧
      (notifyException (notifyException s r1).1 r2).2.2
        = s.monitors.map (fun m => MEvent.setEnabledCall m.ptr false) ∧
      ∀ m ∈ (notifyException (notifyException s r1).1 r2).1.monitors,
        m.enabled = false := by
  simp only [notifyException, kscm_disableAllMonitors, h0, h1, hf1, hf2,
    Bool.not_true, Bool.false_eq_true, if_false, if_true]
  simp [List.mem_map]

/-- Witness for claim C2 at a concrete one-monitor state. -/
theorem notify_fatal_twice_disables_all_witness :
    (notifyException
        (notifyException { baseState with monitors := [mA] } fatalRec).1
        fatalRec).2.1 = true ∧
      ∀ m ∈ (notifyException
          (notifyException { baseState with monitors := [mA] } fatalRec).1
          fatalRec).1.monitors, m.enabled = false :=
  ⟨(notify_fatal_twice_disables_all { baseState with monitors := [mA] }
      fatalRec fatalRec (by decide) (by decide) (by decide) (by decide)).1,
   (notify_fatal_twice_disables_all { baseState with monitors := [mA] }
      fatalRec fatalRec (by decide) (by decide) (by decide) (by decide)).2.2.2⟩

/-- Claim C8: every `notifyException` call ORs the recommendation's
`asyncSafety` into the policy (never clearing it), and a non-fatal
recommendation returns false, leaves `isFatal`, the sticky flag and
the registry untouched, and performs no external calls. -/
theorem notify_async_sticky_and_nonfatal_noop (s : MonitorState)
    (r : KSCrash_ExceptionHandlingPolicy) :
    (notifyException s r).1.currentPolicy.asyncSafety
        = (s.currentPolicy.asyncSafety || r.asyncSafety) ∧
      (r.isFatal = false →
        (notifyException s r).2.1 = false ∧
          (notifyException s r).1.currentPolicy.isFatal
            = s.currentPolicy.isFatal ∧
          (notifyException s r).1.crashedDuringExceptionHandling
            = s.crashedDuringExceptionHandling ∧
          (notifyException s r).1.monitors = s.monitors ∧
          (notifyException s r).2.2 = []) := by
  refine ⟨(notify_policy_step s r).2.1, fun hf => ?_⟩
  simp [notifyException, hf]

/-- Witness for claim C8 at a concrete non-fatal recommendation. -/
theorem notify_async_sticky_and_nonfatal_noop_witness :
    (notifyException baseState nonfatalRec).1.currentPolicy.asyncSafety
        = (baseState.currentPolicy.asyncSafety || nonfatalRec.asyncSafety) ∧
      (notifyException baseState nonfatalRec).2.1 = false :=
  ⟨(notify_async_sticky_and_nonfatal_noop baseState nonfatalRec).1,
   ((notify_async_sticky_and_nonfatal_noop baseState nonfatalRec).2
      (by decide)).1⟩


/-- Claim C5, counterexample: notify is not idempotent on the policy
state.  Repeating `notify({isFatal:true})` from the idle state sets
the sticky crashed-during-handling flag on the second call, so the
state after two identical notifications differs from the state after
one. -/
theorem notify_not_idempotent_counterexample :
    policyTriple
        (notifyException (notifyException baseState fatalRec).1 fatalRec).1
      ≠ policyTriple (notifyException baseState fatalRec).1 := by
  decide

/-- Claim C5, amended: notify's merges are commutative — the final
policy triple `(isFatal, asyncSafety, crashedDuringHandling)` does not
depend on the order of two notifications — and repeating the same
notification is idempotent on the `(isFatal, asyncSafety)` components
(but may additionally set the sticky crashed-during-handling flag when
the notification is fatal). -/
theorem notify_commutative_and_policy_idempotent :
    (∀ (s : MonitorState) (r1 r2 : KSCrash_ExceptionHandlingPolicy),
      policyTriple (notifyException (notifyException s r1).1 r2).1
        = policyTriple (notifyException (notifyException s r2).1 r1).1) ∧
    (∀ (s : MonitorState) (r : KSCrash_ExceptionHandlingPolicy),
      (notifyException (notifyException s r).1 r).1.currentPolicy.isFatal
          = (notifyException s r).1.currentPolicy.isFatal ∧
        (notifyException (notifyException s r).1 r).1.currentPolicy.asyncSafety
          = (notifyException s r).1.currentPolicy.asyncSafety) := by
  constructor
  · intro s r1 r2
    have A := notify_policy_step s r1
    have B := notify_policy_step (notifyException s r1).1 r2
    have C := notify_policy_step s r2
    have D := notify_policy_step (notifyException s r2).1 r1
    simp only [policyTriple, Prod.mk.injEq]
    refine ⟨?_, ?_, ?_⟩
    · rw [B.1, A.1, D.1, C.1]
      exact bool_or_right_swap s.currentPolicy.isFatal r1.isFatal r2.isFatal
    · rw [B.2.1, A.2.1, D.2.1, C.2.1]
      exact bool_or_right_swap s.currentPolicy.asyncSafety r1.asyncSafety
        r2.asyncSafety
    · rw [B.2.2, A.2.2, A.1, D.2.2, C.2.2, C.1]
      exact bool_crashed_swap s.crashedDuringExceptionHandling
        s.currentPolicy.isFatal r1.isFatal r2.isFatal
  · intro s r
    have A := notify_policy_step s r
    have B := notify_policy_step (notifyException s r).1 r
    constructor
    · rw [B.1, A.1]
      exact bool_or_absorb s.currentPolicy.isFatal r.isFatal
    · rw [B.2.1, A.2.1]
      exact bool_or_absorb s.currentPolicy.asyncSafety r.asyncSafety

/-- Claim C3: when `handleException` takes the lock with async-safety
required and the pre-built identifier pool already consumed, it
returns with the lock still held, with no external call and no event
identifier written; consequently every subsequent `handleException`
call fails its non-blocking lock attempt: it leaves the state
unchanged, performs no external call (in particular no monitor
annotation and no application callback) and writes no event
identifier. -/
theorem handle_exhausted_pool_leaks_lock (s : MonitorState)
    (ctx : KSCrash_MonitorContext) (h1 : s.lockHeld = false)
    (h2 : s.currentPolicy.asyncSafety = true)
    (h3 : g_eventIdCount ≤ s.eventIdIdx) :
    (handleException s ctx).1.lockHeld = true ∧
      (handleException s ctx).2.2 = [] ∧
      (handleException s ctx).2.1.eventID = ctx.eventID ∧
      ∀ ctx2 : KSCrash_MonitorContext,
        (handleException (handleException s ctx).1 ctx2).1
            = (handleException s ctx).1 ∧
          (handleException (handleException s ctx).1 ctx2).2.2 = [] ∧
          (handleException (handleException s ctx).1 ctx2).2.1.eventID
            = ctx2.eventID := by
  cases hc : s.crashedDuringExceptionHandling <;>
    simp [handleException, h1, h2, h3, hc]

/-- Witness for claim C3 at a concrete exhausted-pool state. -/
theorem handle_exhausted_pool_leaks_lock_witness :
    ({ baseState with
        eventIdIdx := 2
        currentPolicy := { isFatal := true, asyncSafety := true } }
          : MonitorState).lockHeld = false ∧
      (handleException
          { baseState with
            eventIdIdx := 2
            currentPolicy := { isFatal := true, asyncSafety := true } }
          freshContext).1.lockHeld = true :=
  ⟨by decide,
   (handle_exhausted_pool_leaks_lock
      { baseState with
        eventIdIdx := 2
        currentPolicy := { isFatal := true, asyncSafety := true } }
      freshContext (by decide) (by decide) (by decide)).1⟩

/-- Claim C4: after `regenerateEventIds` both consume steps succeed
and yield the two distinct pre-built identifiers; a third consume
before the next regeneration fails, and `handleException` on such an
exhausted pool (under required async-safety) aborts: it performs no
external call and returns no identifier. -/
theorem pool_yields_two_distinct_then_fails (s : MonitorState) :
    consumeEventId (regenerateEventIds s)
        = some (s.nextId, { regenerateEventIds s with eventIdIdx := 1 }) ∧
      consumeEventId { regenerateEventIds s with eventIdIdx := 1 }
        = some (s.nextId + 1, { regenerateEventIds s with eventIdIdx := 2 }) ∧
      s.nextId ≠ s.nextId + 1 ∧
      consumeEventId { regenerateEventIds s with eventIdIdx := 2 } = none ∧
      ∀ ctx : KSCrash_MonitorContext,
        (handleException
            { regenerateEventIds s with
              eventIdIdx := 2
              lockHeld := false
              currentPolicy :=
                { s.currentPolicy with asyncSafety := true } }
            ctx).2.2 = [] ∧
          (handleException
              { regenerateEventIds s with
                eventIdIdx := 2
                lockHeld := false
                currentPolicy :=
                  { s.currentPolicy with asyncSafety := true } }
              ctx).2.1.eventID = ctx.eventID := by
  refine ⟨by simp [consumeEventId, regenerateEventIds, g_eventIdCount],
    by simp [consumeEventId, regenerateEventIds, g_eventIdCount],
    by omega,
    by simp [consumeEventId, regenerateEventIds, g_eventIdCount],
    fun ctx => ?_⟩
  cases hc : s.crashedDuringExceptionHandling <;>
    simp [handleException, regenerateEventIds, g_eventIdCount, hc]

/-- Witness for claim C4 at the base state. -/
theorem pool_yields_two_distinct_then_fails_witness :
    consumeEventId (regenerateEventIds baseState)
        = some (baseState.nextId,
            { regenerateEventIds baseState with eventIdIdx := 1 }) ∧
      consumeEventId { regenerateEventIds baseState with eventIdIdx := 2 }
        = none :=
  ⟨(pool_yields_two_distinct_then_fails baseState).1,
   (pool_yields_two_distinct_then_fails baseState).2.2.2.1⟩

/-- Claim C6: after `kscm_activateMonitors`, no DebuggerUnsafe-flagged
monitor is enabled when the debugger probe is true, no monitor lacking
the AsyncSafe flag is enabled when async-safety is required, every
other registered monitor is enabled, and the return value is true iff
at least one monitor ended up enabled. -/
theorem activateMonitors_masks_and_returns (s : MonitorState) (dbg : Bool) :
    (∀ m ∈ (kscm_activateMonitors s dbg).1.monitors,
        dbg = true → m.flagDebuggerUnsafe = true → m.enabled = false) ∧
      (∀ m ∈ (kscm_activateMonitors s dbg).1.monitors,
        s.currentPolicy.asyncSafety = true → m.flagAsyncSafe = false →
          m.enabled = false) ∧
      (∀ m ∈ (kscm_activateMonitors s dbg).1.monitors,
        (dbg = false ∨ m.flagDebuggerUnsafe = false) →
        (s.currentPolicy.asyncSafety = false ∨ m.flagAsyncSafe = true) →
          m.enabled = true) ∧
      ((kscm_activateMonitors s dbg).2.1 = true ↔
        ∃ m ∈ (kscm_activateMonitors s dbg).1.monitors, m.enabled = true) := by
  refine ⟨?_, ?_, ?_, ?_⟩
  · intro m hm hdbg hdu
    simp only [kscm_activateMonitors, regenerateEventIds, List.mem_map] at hm
    rcases hm with ⟨m0, hm0, rfl⟩
    simp only at hdu
    simp [shouldEnableMonitor, hdbg, hdu]
  · intro m hm hasync hau
    simp only [kscm_activateMonitors, regenerateEventIds, List.mem_map] at hm
    rcases hm with ⟨m0, hm0, rfl⟩
    simp only at hau
    simp [shouldEnableMonitor, hasync, hau]
  · intro m hm hd ha
    simp only [kscm_activateMonitors, regenerateEventIds, List.mem_map] at hm
    rcases hm with ⟨m0, hm0, rfl⟩
    simp only at hd ha
    rcases hd with hd | hd <;> rcases ha with ha | ha <;>
      simp [shouldEnableMonitor, hd, ha]
  · simp only [kscm_activateMonitors, regenerateEventIds]
    simp [List.any_eq_true]

/-- Witness for claim C6: with the debugger attached, the
DebuggerUnsafe monitor B ends up disabled. -/
theorem activateMonitors_masks_witness :
    ({ mB with enabled := false } ∈
        (kscm_activateMonitors sAB true).1.monitors) ∧
      ({ mB with enabled := false } : KSCrashMonitorAPI).enabled = false :=
  ⟨by decide,
   (activateMonitors_masks_and_returns sAB true).1
     { mB with enabled := false } (by decide) (by decide) (by decide)⟩

/-- A successful registration appends the monitor and invokes its
`init` exactly once. -/
theorem addMonitor_success (s : MonitorState) (m : KSCrashMonitorAPI)
    (hid : m.monitorId.isSome = true)
    (hnodup : s.monitors.any
      (fun em => safeStrEq em.monitorId m.monitorId) = false) :
    kscm_addMonitor s (some m)
      = ({ s with monitors := s.monitors ++ [m] }, true,
          [MEvent.initCall m.ptr]) := by
  rcases hm : m.monitorId with _ | nid
  · rw [hm] at hid
    simp at hid
  · rw [hm] at hnodup
    simp [kscm_addMonitor, hm, hnodup]

/-- Folding `kscm_addMonitor` over monitors with present, pairwise
distinct ids that are absent from the registry grows the registry by
exactly the number of monitors added. -/
theorem addMonitors_length (ms : List KSCrashMonitorAPI) : ∀ s : MonitorState,
    (∀ m ∈ ms, m.monitorId.isSome = true) →
    ms.Pairwise (fun a b => a.monitorId ≠ b.monitorId) →
    (∀ m ∈ ms, ∀ em ∈ s.monitors,
      safeStrEq em.monitorId m.monitorId = false) →
    (addMonitors s ms).monitors.length = s.monitors.length + ms.length := by
  induction ms with
  | nil =>
    intro s _ _ _
    simp [addMonitors]
  | cons m rest ih =>
    intro s hsome hpw hdisj
    have hany : s.monitors.any
        (fun em => safeStrEq em.monitorId m.monitorId) = false := by
      rw [List.any_eq_false]
      intro em hem
      simp [hdisj m (List.mem_cons_self m rest) em hem]
    have hstep := addMonitor_success s m
      (hsome m (List.mem_cons_self m rest)) hany
    have hms : addMonitors s (m :: rest)
        = addMonitors { s with monitors := s.monitors ++ [m] } rest := by
      simp [addMonitors, hstep]
    rw [hms]
    have hrest := ih { s with monitors := s.monitors ++ [m] }
      (fun x hx => hsome x (List.mem_cons_of_mem m hx))
      ((List.pairwise_cons.mp hpw).2)
      ?_
    · rw [hrest]
      simp
      omega
    · intro x hx em hem
      rcases List.mem_append.mp hem with hem1 | hem2
      · exact hdisj x (List.mem_cons_of_mem m hx) em hem1
      · have hemm : em = m := by simpa using hem2
        subst hemm
        have hne : em.monitorId ≠ x.monitorId :=
          (List.pairwise_cons.mp hpw).1 x hx
        have hxs := hsome x (List.mem_cons_of_mem em hx)
        rcases hmx : x.monitorId with _ | nx
        · rw [hmx] at hxs
          simp at hxs
        · rcases hmm : em.monitorId with _ | nm
          · simp [safeStrEq]
          · rw [hmm, hmx] at hne
            simp only [safeStrEq, beq_eq_false_iff_ne, ne_eq]
            intro h
            exact hne (by rw [h])

/-- Claim C7: adding monitors with pairwise-distinct non-null ids
grows the registry to exactly that many entries; a NULL monitor, a
NULL id, or an already-present id is rejected with no state change and
no `init` call; a successful add invokes `init` exactly once. -/
theorem addMonitor_registry_spec :
    (∀ (s : MonitorState) (ms : List KSCrashMonitorAPI),
      s.monitors = [] →
      (∀ m ∈ ms, m.monitorId.isSome = true) →
      ms.Pairwise (fun a b => a.monitorId ≠ b.monitorId) →
      (addMonitors s ms).monitors.length = ms.length) ∧
    (∀ s : MonitorState, kscm_addMonitor s none = (s, false, [])) ∧
    (∀ (s : MonitorState) (m : KSCrashMonitorAPI), m.monitorId = none →
      kscm_addMonitor s (some m) = (s, false, [])) ∧
    (∀ (s : MonitorState) (m : KSCrashMonitorAPI),
      s.monitors.any (fun em => safeStrEq em.monitorId m.monitorId) = true →
      kscm_addMonitor s (some m) = (s, false, [])) ∧
    (∀ (s : MonitorState) (m : KSCrashMonitorAPI),
      m.monitorId.isSome = true →
      s.monitors.any (fun em => safeStrEq em.monitorId m.monitorId) = false →
      kscm_addMonitor s (some m)
        = ({ s with monitors := s.monitors ++ [m] }, true,
            [MEvent.initCall m.ptr])) := by
  refine ⟨?_, ?_, ?_, ?_, fun s m hid hnodup => addMonitor_success s m hid hnodup⟩
  · intro s ms h0 hsome hpw
    have hdisj : ∀ m ∈ ms, ∀ em ∈ s.monitors,
        safeStrEq em.monitorId m.monitorId = false := by
      intro m hm em hem
      rw [h0] at hem
      cases hem
    rw [addMonitors_length ms s hsome hpw hdisj, h0]
    simp
  · intro s
    simp [kscm_addMonitor]
  · intro s m hm
    simp [kscm_addMonitor, hm]
  · intro s m hdup
    rcases hm : m.monitorId with _ | nid
    · simp [kscm_addMonitor, hm]
    · rw [hm] at hdup
      simp [kscm_addMonitor, hm, hdup]

/-- Witness for claim C7: two distinct monitors register and the
duplicate-id monitor B2 is rejected without state change. -/
theorem addMonitor_registry_spec_witness :
    (addMonitors baseState [mA, mB]).monitors.length = 2 ∧
      kscm_addMonitor (addMonitors baseState [mA, mB]) (some mB2)
        = (addMonitors baseState [mA, mB], false, []) :=
  ⟨addMonitor_registry_spec.1 baseState [mA, mB] (by decide) (by decide)
      (by decide),
   addMonitor_registry_spec.2.2.2.1 (addMonitors baseState [mA, mB]) mB2
      (by decide)⟩

/-- Removing a descriptor whose pointer matches no registry entry is a
no-op: no state change, no external call, nothing removed. -/
theorem removeMonitor_notFound (s : MonitorState) (d : KSCrashMonitorAPI)
    (h : ∀ m ∈ s.monitors, m.ptr ≠ d.ptr) :
    kscm_removeMonitor s (some d) = (s, [], none) := by
  have hidx : s.monitors.findIdx? (fun m => m.ptr == d.ptr) = none := by
    rw [List.findIdx?_eq_none_iff]
    intro x hx
    simpa using h x hx
  simp [kscm_removeMonitor, removeMonitor, hidx]

/-- Claim C9: after registering A, B, C and removing B, the registry
holds exactly the monitors with ids A and C; `setEnabled(false)` was
invoked on B during removal, so the removed descriptor reports
disabled; the swap-with-last-and-truncate removal keeps A and C; and
removing a monitor absent from the registry is a no-op. -/
theorem removeMonitor_scenario_spec :
    ((kscm_removeMonitor s9 (some mB)).1.monitors.map (fun m => m.ptr)
        = [mA.ptr, mC.ptr]) ∧
      ((kscm_removeMonitor s9 (some mB)).1.monitors.map (fun m => m.monitorId)
        = [some "A", some "C"]) ∧
      ((kscm_removeMonitor s9 (some mB)).2.2 = some { mB with enabled := false }) ∧
      (((kscm_removeMonitor s9 (some mB)).2.2.getD mB).enabled = false) ∧
      ((kscm_removeMonitor s9 (some mB)).2.1
        = [MEvent.setEnabledCall mB.ptr false]) ∧
      (∀ (s : MonitorState) (d : KSCrashMonitorAPI),
        (∀ m ∈ s.monitors, m.ptr ≠ d.ptr) →
        kscm_removeMonitor s (some d) = (s, [], none)) :=
  ⟨by decide, by decide, by decide, by decide, by decide,
   fun s d h => removeMonitor_notFound s d h⟩

/-- Witness for claim C9: removing the unregistered descriptor B2
(pointer 4) from the A, B, C registry is a no-op. -/
theorem removeMonitor_scenario_spec_witness :
    kscm_removeMonitor s9 (some mB2) = (s9, [], none) :=
  removeMonitor_scenario_spec.2.2.2.2.2 s9 mB2 (by
    intro m hm
    have h9 : s9.monitors = [mA, mB, mC] := by decide
    rw [h9] at hm
    fin_cases hm <;> decide)

/-- Claim C10: `remove` uses pointer identity, not id equality.  A
descriptor distinct (as an object) from every registered monitor is
not removed even when its id string equals a registered monitor's id:
the state is unchanged, no `setEnabled(false)` (or any other external
call) is made, and nothing is removed. -/
theorem removeMonitor_pointer_identity (s : MonitorState)
    (d : KSCrashMonitorAPI)
    (hptr : ∀ m ∈ s.monitors, m.ptr ≠ d.ptr)
    (hid : ∃ m ∈ s.monitors, m.monitorId = d.monitorId) :
    kscm_removeMonitor s (some d) = (s, [], none) :=
  removeMonitor_notFound s d hptr

/-- Witness for claim C10: descriptor B2 (pointer 4, id "B") does not
remove the registered monitor B (pointer 2, id "B"). -/
theorem removeMonitor_pointer_identity_witness :
    kscm_removeMonitor sB (some mB2) = (sB, [], none) :=
  removeMonitor_pointer_identity sB mB2
    (by
      intro m hm
      have hB : sB.monitors = [mB] := by decide
      rw [hB] at hm
      fin_cases hm <;> decide)
    ⟨mB, by decide, by decide⟩
